import Mathlib

/-!
Shallow embedding of the opening-hours Python binding layer
(`src/lib.rs`, `src/types.rs`, `src/errors.rs`).

The binding wraps an external evaluation engine (the `opening_hours` Rust
crate).  Everything the binding itself implements is translated here from
the source; the engine's operations (parser, `state`, `next_change`,
`iter_from`, `iter_range`) are not part of the repository's sources and are
modelled from the spec where a claim needs them, as marked in the doc
comments below.

Machine integers: the Rust code uses `i32` for years and `u32`/`u8` for the
remaining datetime fields.  All values involved are far from the `i32`/`u32`
bounds, so they are embedded as `Int` and `Nat`; the one fallible narrowing
(`u32 -> u8` via `try_into`) is modelled explicitly by `u8_try_from`.
-/

-- ---
-- --- State codec (src/types.rs, `State`)
-- ---

/-- The engine's tri-state rule-evaluation result (`opening_hours::time_domain::RuleKind`). -/
inductive RuleKind where
  | Open
  | Closed
  | Unknown
deriving DecidableEq, Repr, BEq

/-- Embeds `State` from src/types.rs: the binding's copy of the tri-state result. -/
inductive State where
  | Open
  | Closed
  | Unknown
deriving DecidableEq, Repr, BEq

/-- Embeds `impl From<RuleKind> for State` (src/types.rs lines 24-32). -/
def State.from_rule_kind : RuleKind → State
  | RuleKind.Open => State.Open
  | RuleKind.Closed => State.Closed
  | RuleKind.Unknown => State.Unknown

/-- Embeds `impl IntoPy<Py<PyAny>> for State` (src/types.rs lines 34-42): the encoder
to the closed three-token vocabulary. -/
def State.into_py : State → String
  | State.Open => "open"
  | State.Closed => "closed"
  | State.Unknown => "unknown"

/-- Modelled from the spec: the decoder of the closed vocabulary, inverse of
the encode table of section 4.2 (the source defines only the encoder; the
spec states the mapping is bidirectional and the vocabulary closed). -/
def State.decode : String → Option State
  | "open" => some State.Open
  | "closed" => some State.Closed
  | "unknown" => some State.Unknown
  | _ => none

-- ---
-- --- Datetime model (chrono::NaiveDateTime as used by the bridge)
-- ---

/-- Embeds `chrono::NaiveDateTime` as the bridge uses it: the bridge only ever reads
or writes the fields down to seconds (`extract` builds values with
`from_hms`, so nanoseconds are always 0, and `into_py` never reads below
minutes), so sub-second fields are omitted. -/
structure NaiveDateTime where
  year : Int
  month : Nat
  day : Nat
  hour : Nat
  minute : Nat
  second : Nat
deriving DecidableEq, Repr

/-- Chronological (lexicographic) strict order on datetimes, as given by
chrono's `Ord` and inherited by `#[derive(Ord)]` on `NaiveDateTimeWrapper`
(src/types.rs line 48). -/
def NaiveDateTime.lt (a b : NaiveDateTime) : Prop :=
  a.year < b.year ∨ (a.year = b.year ∧
    (a.month < b.month ∨ (a.month = b.month ∧
      (a.day < b.day ∨ (a.day = b.day ∧
        (a.hour < b.hour ∨ (a.hour = b.hour ∧
          (a.minute < b.minute ∨ (a.minute = b.minute ∧
            a.second < b.second)))))))))

/-- Chronological non-strict order on datetimes. -/
def NaiveDateTime.le (a b : NaiveDateTime) : Prop :=
  NaiveDateTime.lt a b ∨ a = b

instance (a b : NaiveDateTime) : Decidable (NaiveDateTime.lt a b) := by
  unfold NaiveDateTime.lt; exact inferInstance

instance (a b : NaiveDateTime) : Decidable (NaiveDateTime.le a b) := by
  unfold NaiveDateTime.le; exact inferInstance

/-- Leap years of the proleptic Gregorian calendar (shared by chrono and by
Python's `datetime`). -/
def isLeapYear (y : Int) : Bool :=
  (y % 4 == 0 && y % 100 != 0) || y % 400 == 0

/-- Days in a month of the proleptic Gregorian calendar. -/
def daysInMonth (y : Int) (m : Nat) : Nat :=
  match m with
  | 1 => 31
  | 2 => if isLeapYear y then 29 else 28
  | 3 => 31
  | 4 => 30
  | 5 => 31
  | 6 => 30
  | 7 => 31
  | 8 => 31
  | 9 => 30
  | 10 => 31
  | 11 => 30
  | 12 => 31
  | _ => 0

/-- The invariants chrono guarantees for any constructible `NaiveDateTime`
(`from_ymd`/`from_hms` panic outside these ranges; chrono's year range is
-262144..=262143). -/
def ChronoValid (dt : NaiveDateTime) : Prop :=
  -262144 ≤ dt.year ∧ dt.year ≤ 262143 ∧
  1 ≤ dt.month ∧ dt.month ≤ 12 ∧
  1 ≤ dt.day ∧ dt.day ≤ daysInMonth dt.year dt.month ∧
  dt.hour ≤ 23 ∧ dt.minute ≤ 59 ∧ dt.second ≤ 59

instance (dt : NaiveDateTime) : Decidable (ChronoValid dt) := by
  unfold ChronoValid; exact inferInstance

-- ---
-- --- Host datetime (Python datetime.datetime, as read/built by the bridge)
-- ---

/-- A Python `datetime.datetime` as the bridge sees it: the bridge reads the
fields down to seconds (`get_year` .. `get_second`) and always writes 0 for
second and microsecond, so sub-second fields are omitted. -/
structure PyDateTime where
  year : Int
  month : Nat
  day : Nat
  hour : Nat
  minute : Nat
  second : Nat
deriving DecidableEq, Repr

/-- The invariants CPython guarantees for any constructed `datetime.datetime`
(MINYEAR = 1, MAXYEAR = 9999). -/
def PyValid (p : PyDateTime) : Prop :=
  1 ≤ p.year ∧ p.year ≤ 9999 ∧
  1 ≤ p.month ∧ p.month ≤ 12 ∧
  1 ≤ p.day ∧ p.day ≤ daysInMonth p.year p.month ∧
  p.hour ≤ 23 ∧ p.minute ≤ 59 ∧ p.second ≤ 59

instance (p : PyDateTime) : Decidable (PyValid p) := by
  unfold PyValid; exact inferInstance

/-- Kinds of Python exception raised by the code paths embedded here. -/
inductive PyErrKind where
  /-- Embeds `ValueError`, raised by CPython's datetime constructor on out-of-range
  fields. -/
  | valueError
  /-- Embeds `OverflowError`, the pyo3 image of `TryFromIntError` from a failed
  `u32 -> u8` narrowing. -/
  | overflowError
  /-- Embeds `PySyntaxError`, the spec's `InvalidExpression` taxonomy member
  (src/errors.rs lines 23-27). -/
  | invalidExpression
deriving DecidableEq, Repr

/-- A raised Python exception: its kind and rendered message. -/
structure PyErr where
  kind : PyErrKind
  message : String
deriving DecidableEq, Repr

/-- Embeds `u8::try_from` on a `u32` field value followed by pyo3's conversion of
the failure into a Python `OverflowError` (the `try_into()?` calls in
src/types.rs lines 103-106). -/
def u8_try_from (n : Nat) : Except PyErr Nat :=
  if n ≤ 255 then Except.ok n
  else Except.error { kind := PyErrKind.overflowError,
                      message := "out of range integral type conversion attempted" }

/-- Embeds `PyDateTime::new` (pyo3 wrapper of CPython's `datetime.datetime`
constructor): validates every field against Python's accepted ranges and
raises `ValueError` outside them.  Checks are in CPython's order
(year, month, day, then the time fields). -/
def PyDateTime.new (year : Int) (month day hour minute second : Nat) :
    Except PyErr PyDateTime :=
  if year < 1 ∨ 9999 < year then
    Except.error { kind := PyErrKind.valueError, message := "year is out of range" }
  else if month < 1 ∨ 12 < month then
    Except.error { kind := PyErrKind.valueError, message := "month must be in 1..12" }
  else if day < 1 ∨ daysInMonth year month < day then
    Except.error { kind := PyErrKind.valueError, message := "day is out of range for month" }
  else if 23 < hour then
    Except.error { kind := PyErrKind.valueError, message := "hour must be in 0..23" }
  else if 59 < minute then
    Except.error { kind := PyErrKind.valueError, message := "minute must be in 0..59" }
  else if 59 < second then
    Except.error { kind := PyErrKind.valueError, message := "second must be in 0..59" }
  else
    Except.ok { year := year, month := month, day := day,
                hour := hour, minute := minute, second := second }

-- ---
-- --- NaiveDateTimeWrapper (src/types.rs lines 48-124): the Datetime Bridge
-- ---

namespace NaiveDateTimeWrapper

/-- Embeds `NaiveDateTimeWrapper::max_py_value` (src/types.rs lines 52-59):
the sentinel MaxRepresentableInstant, 9999-12-31 23:59:59. -/
def max_py_value : NaiveDateTime :=
  { year := 9999, month := 12, day := 31, hour := 23, minute := 59, second := 59 }

/-- Embeds `impl FromPyObject for NaiveDateTimeWrapper` (src/types.rs lines 73-92):
the host-to-engine conversion, a field-wise copy of the fields down to
seconds (sub-second fields of the Python value are never read). -/
def extract (p : PyDateTime) : NaiveDateTime :=
  { year := p.year, month := p.month, day := p.day,
    hour := p.hour, minute := p.minute, second := p.second }

/-- Embeds `impl IntoPy<PyResult<Option<Py<PyDateTime>>>> for NaiveDateTimeWrapper`
(src/types.rs lines 94-115): the engine-to-host conversion.  Values at or
after the sentinel become `None`; otherwise the four `u8` narrowings run in
argument order, then the Python constructor is called with second and
microsecond forced to 0.  The `match` chains are the explicit image of the
`?` operators. -/
def into_py (dt : NaiveDateTime) : Except PyErr (Option PyDateTime) :=
  if NaiveDateTime.le max_py_value dt then
    Except.ok none
  else
    match u8_try_from dt.month with
    | Except.error e => Except.error e
    | Except.ok month =>
      match u8_try_from dt.day with
      | Except.error e => Except.error e
      | Except.ok day =>
        match u8_try_from dt.hour with
        | Except.error e => Except.error e
        | Except.ok hour =>
          match u8_try_from dt.minute with
          | Except.error e => Except.error e
          | Except.ok minute =>
            match PyDateTime.new dt.year month day hour minute 0 with
            | Except.error e => Except.error e
            | Except.ok p => Except.ok (some p)

end NaiveDateTimeWrapper

-- ---
-- --- The external engine (opening_hours crate), modelled from the spec
-- ---

/-- Embeds `opening_hours::time_domain::DateTimeRange` (spec section 6): one element
of the engine's interval iterators. -/
structure DateTimeRange where
  start : NaiveDateTime
  «end» : NaiveDateTime
  kind : RuleKind
  comments : List String
deriving DecidableEq, Repr

/-- Modelled from the spec: the engine's parsed `TimeDomain` value
(`opening_hours::time_domain::TimeDomain`, external to this repository) is
opaque here; per spec section 6 it offers `state`, `next_change`,
`iter_from` and `iter_range`.  The iterators are modelled as the lists of
elements they yield (`iter_from` as an arbitrary finite prefix of the
possibly-infinite stream). -/
structure TimeDomainValue where
  state : NaiveDateTime → RuleKind
  next_change : NaiveDateTime → NaiveDateTime
  iter_from : NaiveDateTime → List DateTimeRange
  iter_range : NaiveDateTime → NaiveDateTime → List DateTimeRange

/-- Modelled from the spec: the engine's `is_open` (not under src/; spec
section 4.3 defines it as `state(instant) == Open`). -/
def TimeDomainValue.is_open (v : TimeDomainValue) (t : NaiveDateTime) : Bool :=
  v.state t == RuleKind.Open

/-- Modelled from the spec: the engine's `is_closed`
(`state(instant) == Closed`, spec section 4.3). -/
def TimeDomainValue.is_closed (v : TimeDomainValue) (t : NaiveDateTime) : Bool :=
  v.state t == RuleKind.Closed

/-- Modelled from the spec: the engine's `is_unknown`
(`state(instant) == Unknown`, spec section 4.3). -/
def TimeDomainValue.is_unknown (v : TimeDomainValue) (t : NaiveDateTime) : Bool :=
  v.state t == RuleKind.Unknown

/-- Embeds `opening_hours::parser::Error`, kept abstract: only its rendered
`Display` text reaches this layer (src/errors.rs line 13). -/
structure EngineParseError where
  rendered : String
deriving DecidableEq, Repr

-- ---
-- --- Error classifier (src/errors.rs)
-- ---

/-- Embeds `ParserError` (src/errors.rs lines 6-7): newtype over the engine's
structured parse error. -/
structure ParserError where
  inner : EngineParseError
deriving DecidableEq, Repr

/-- Embeds `impl Display for ParserError` (src/errors.rs lines 11-15). -/
def ParserError.render (e : ParserError) : String :=
  "could not parse expression:\n" ++ e.inner.rendered

/-- Embeds `impl From<ParserError> for PyErr` (src/errors.rs lines 23-27): every
parse failure becomes a `PySyntaxError` (the spec's `InvalidExpression`)
carrying the rendered message. -/
def ParserError.to_py_err (e : ParserError) : PyErr :=
  { kind := PyErrKind.invalidExpression, message := ParserError.render e }

-- ---
-- --- RangeIterator (src/types.rs lines 130-185): the Range Stream
-- ---

/-- The decoded tuple `(start, end, state, comments)` yielded to Python by
`RangeIterator::__next__` (src/types.rs lines 169-184); the spec's
IntervalRecord. -/
structure IntervalRecord where
  start : NaiveDateTime
  «end» : NaiveDateTime
  state : State
  comments : List String
deriving DecidableEq, Repr

/-- Embeds `RangeIterator` (src/types.rs lines 130-134): holds the shared
time-domain value (`_td`, kept only to extend its lifetime) and the engine
iterator, modelled by the list of its remaining elements. -/
structure RangeIterator where
  _td : TimeDomainValue
  iter : List DateTimeRange

/-- Embeds `RangeIterator::new` (src/types.rs lines 136-160): picks the bounded
engine iterator when `end` is present and the unbounded one otherwise, and
stores the shared value in `_td`. -/
def RangeIterator.new (td : TimeDomainValue) (start : NaiveDateTime)
    (stop : Option NaiveDateTime) : RangeIterator :=
  { _td := td,
    iter :=
      match stop with
      | some e => td.iter_range start e
      | none => td.iter_from start }

/-- Embeds `RangeIterator::__next__` (src/types.rs lines 169-184): pulls one element
from the engine iterator and decodes it; `none` when exhausted. -/
def RangeIterator.next (it : RangeIterator) :
    Option (IntervalRecord × RangeIterator) :=
  match it.iter with
  | [] => none
  | r :: rest =>
    some ({ start := r.start, «end» := r.«end»,
            state := State.from_rule_kind r.kind, comments := r.comments },
          { it with iter := rest })

/-- The full sequence of records a `RangeIterator` yields over its lifetime
(repeated `__next__` until exhaustion). -/
def RangeIterator.yields (it : RangeIterator) : List IntervalRecord :=
  it.iter.map (fun r =>
    { start := r.start, «end» := r.«end»,
      state := State.from_rule_kind r.kind, comments := r.comments })

-- ---
-- --- Domain handle (src/lib.rs): validate, TimeDomain and its methods
-- ---

/-- Embeds `get_time` (src/lib.rs lines 18-20): an explicit time, else the wall
clock.  The wall clock is not injectable in the source (`Local::now()`), so
it is passed here as the explicit argument `now`. -/
def get_time (datetime : Option NaiveDateTime) (now : NaiveDateTime) :
    NaiveDateTime :=
  datetime.getD now

/-- Rust's `Result::is_ok`, on the `Except` values of this embedding. -/
def Result.is_ok (x : Except ε α) : Bool :=
  match x with
  | Except.ok _ => true
  | Except.error _ => false

/-- Embeds `TimeDomain` (src/lib.rs lines 35-39): the handle owning the shared
parsed value (the `Arc` reference counting is modelled separately by
`ArcAlloc` below; here `inner` is the pointed-to value). -/
structure TimeDomain where
  inner : TimeDomainValue

/-- Embeds `validate` (src/lib.rs lines 29-33): exactly `parser::parse(oh).is_ok()`.
The engine parser is external, so it is taken as an explicit function
argument shared with `TimeDomain.new`. -/
def validate (parse : String → Except EngineParseError TimeDomainValue)
    (oh : String) : Bool :=
  Result.is_ok (parse oh)

/-- Embeds `TimeDomain::new` (src/lib.rs lines 46-51): parse, wrap the value, and
convert any parse failure through `ParserError` into the Python error
(`Ok(Self { inner: Arc::new(parser::parse(oh).map_err(ParserError::from)?) })`). -/
def TimeDomain.new (parse : String → Except EngineParseError TimeDomainValue)
    (oh : String) : Except PyErr TimeDomain :=
  match parse oh with
  | Except.ok v => Except.ok { inner := v }
  | Except.error e => Except.error (ParserError.to_py_err { inner := e })

/-- Embeds `TimeDomain::state` (src/lib.rs lines 65-68). -/
def TimeDomain.state (td : TimeDomain) (time : Option NaiveDateTime)
    (now : NaiveDateTime) : State :=
  State.from_rule_kind (td.inner.state (get_time time now))

/-- Embeds `TimeDomain::is_open` (src/lib.rs lines 70-73). -/
def TimeDomain.is_open (td : TimeDomain) (time : Option NaiveDateTime)
    (now : NaiveDateTime) : Bool :=
  td.inner.is_open (get_time time now)

/-- Embeds `TimeDomain::is_closed` (src/lib.rs lines 75-78). -/
def TimeDomain.is_closed (td : TimeDomain) (time : Option NaiveDateTime)
    (now : NaiveDateTime) : Bool :=
  td.inner.is_closed (get_time time now)

/-- Embeds `TimeDomain::is_unknown` (src/lib.rs lines 80-83). -/
def TimeDomain.is_unknown (td : TimeDomain) (time : Option NaiveDateTime)
    (now : NaiveDateTime) : Bool :=
  td.inner.is_unknown (get_time time now)

/-- Embeds `TimeDomain::next_change` (src/lib.rs lines 85-90): the engine result,
which still passes through `NaiveDateTimeWrapper.into_py` on return to the
host. -/
def TimeDomain.next_change (td : TimeDomain) (time : Option NaiveDateTime)
    (now : NaiveDateTime) : NaiveDateTime :=
  td.inner.next_change (get_time time now)

/-- Embeds `TimeDomain::intervals` (src/lib.rs lines 92-102). -/
def TimeDomain.intervals (td : TimeDomain) (start stop : Option NaiveDateTime)
    (now : NaiveDateTime) : RangeIterator :=
  RangeIterator.new td.inner (get_time start now) stop

-- ---
-- --- Arc reference counting (std::sync::Arc as used by lib.rs/types.rs)
-- ---

/-- Shallow model of the one `Arc` allocation shared between the handle and
its streams: the stored value and the strong count.  The value is
deallocated exactly when the strong count reaches zero. -/
structure ArcAlloc (α : Type) where
  value? : Option α
  strong : Nat

/-- Embeds `Arc::new` (src/lib.rs line 49): one strong holder. -/
def ArcAlloc.new (v : α) : ArcAlloc α :=
  { value? := some v, strong := 1 }

/-- Embeds `Arc::clone` (src/lib.rs line 98, `self.inner.clone()` in `intervals`):
one more strong holder, value untouched. -/
def ArcAlloc.clone (c : ArcAlloc α) : ArcAlloc α :=
  { c with strong := c.strong + 1 }

/-- Dropping one strong holder: the value is destroyed only when the last
holder is gone. -/
def ArcAlloc.drop (c : ArcAlloc α) : ArcAlloc α :=
  if c.strong ≤ 1 then { value? := none, strong := 0 }
  else { c with strong := c.strong - 1 }

/-- Embeds `k` successive clones (one per Range Stream created by `intervals`). -/
def ArcAlloc.cloneN (k : Nat) (c : ArcAlloc α) : ArcAlloc α :=
  match k with
  | 0 => c
  | k + 1 => ArcAlloc.clone (ArcAlloc.cloneN k c)

/-- Embeds `j` successive drops (handle and/or streams going out of scope). -/
def ArcAlloc.dropN (j : Nat) (c : ArcAlloc α) : ArcAlloc α :=
  match j with
  | 0 => c
  | j + 1 => ArcAlloc.drop (ArcAlloc.dropN j c)

-- ---
-- --- Concrete sample values (used by witnesses)
-- ---

/-- Modelled from the spec: the engine's parse of `"24/7"` (spec scenario A:
always `Open`; `next_change` is the sentinel since the state never changes;
the bounded iterator yields the single covering open interval). -/
def td_open_24_7 : TimeDomainValue :=
  { state := fun _ => RuleKind.Open,
    next_change := fun _ => NaiveDateTimeWrapper.max_py_value,
    iter_from := fun s => [{ start := s, «end» := NaiveDateTimeWrapper.max_py_value,
                             kind := RuleKind.Open, comments := [] }],
    iter_range := fun s e => [{ start := s, «end» := e,
                                kind := RuleKind.Open, comments := [] }] }

/-- Modelled from the spec: the engine's parse of `"24/7 off"` (spec
scenario B: always `Closed`). -/
def td_closed_24_7 : TimeDomainValue :=
  { state := fun _ => RuleKind.Closed,
    next_change := fun _ => NaiveDateTimeWrapper.max_py_value,
    iter_from := fun s => [{ start := s, «end» := NaiveDateTimeWrapper.max_py_value,
                             kind := RuleKind.Closed, comments := [] }],
    iter_range := fun s e => [{ start := s, «end» := e,
                                kind := RuleKind.Closed, comments := [] }] }

/-- Modelled from the spec: a concrete instance of the external parser
`opening_hours::parser::parse` covering the spec's scenarios A, B and D
(`"24/7"` and `"24/7 off"` parse; anything else, such as `"24/77"`, fails
with a rendered diagnostic). -/
def spec_parse (t : String) : Except EngineParseError TimeDomainValue :=
  if t = "24/7" then Except.ok td_open_24_7
  else if t = "24/7 off" then Except.ok td_closed_24_7
  else Except.error { rendered := "unexpected token in expression: " ++ t }

/-- A midpoint instant used by the bounded-range witness. -/
def dt_mid : NaiveDateTime :=
  { year := 2020, month := 1, day := 1, hour := 12, minute := 0, second := 0 }

/-- Modelled from the spec (sections 4.4 and 8): the contract of the
engine's bounded iterator `iter_range(start, end)` (external to this
repository): every element lies inside `[start, end)` with a non-empty span,
consecutive elements are adjacent (no gaps, no overlaps), and together they
cover `[start, end)`. -/
def BoundedRangeSpec (s e : NaiveDateTime) (l : List DateTimeRange) : Prop :=
  (∀ r ∈ l, NaiveDateTime.le s r.start ∧ NaiveDateTime.lt r.start r.«end» ∧
    NaiveDateTime.le r.«end» e)
  ∧ List.Chain' (fun a b => a.«end» = b.start) l
  ∧ (l = [] → s = e)
  ∧ (l ≠ [] → l.head?.map DateTimeRange.start = some s ∧
      l.getLast?.map DateTimeRange.«end» = some e)

instance (s e : NaiveDateTime) (l : List DateTimeRange) :
    Decidable (BoundedRangeSpec s e l) := by
  unfold BoundedRangeSpec; exact inferInstance

/-- Modelled from the spec: a domain with two alternating rules over the
queried window (spec scenario E), yielding two adjacent records. -/
def td_two_rules : TimeDomainValue :=
  { state := fun t => if NaiveDateTime.lt t dt_mid then RuleKind.Open else RuleKind.Closed,
    next_change := fun _ => dt_mid,
    iter_from := fun s => [{ start := s, «end» := dt_mid,
                             kind := RuleKind.Open, comments := [] }],
    iter_range := fun s e =>
      [{ start := s, «end» := dt_mid, kind := RuleKind.Open, comments := [] },
       { start := dt_mid, «end» := e, kind := RuleKind.Closed, comments := [] }] }

-- ---
-- --- Order helper lemmas
-- ---

theorem NaiveDateTime.not_le_of_lt {a b : NaiveDateTime}
    (h : NaiveDateTime.lt a b) : ¬ NaiveDateTime.le b a := by
  cases a; cases b
  simp only [NaiveDateTime.lt, NaiveDateTime.le, NaiveDateTime.mk.injEq] at *
  omega

theorem NaiveDateTime.le_of_lt {a b : NaiveDateTime}
    (h : NaiveDateTime.lt a b) : NaiveDateTime.le a b :=
  Or.inl h

theorem NaiveDateTime.year_le_of_lt_max {dt : NaiveDateTime}
    (h : NaiveDateTime.lt dt NaiveDateTimeWrapper.max_py_value) :
    dt.year ≤ 9999 := by
  cases dt
  simp only [NaiveDateTime.lt, NaiveDateTimeWrapper.max_py_value] at h
  dsimp only
  omega

theorem u8_ok (n : Nat) (h : n ≤ 255) : u8_try_from n = Except.ok n := by
  unfold u8_try_from
  rw [if_pos h]

theorem daysInMonth_le_31 (y : Int) (m : Nat) : daysInMonth y m ≤ 31 := by
  unfold daysInMonth
  split <;> (try split_ifs) <;> omega

theorem PyDateTime.new_second (y : Int) (m d hh mm s : Nat) (p : PyDateTime)
    (h : PyDateTime.new y m d hh mm s = Except.ok p) : p.second = s := by
  unfold PyDateTime.new at h
  split_ifs at h
  all_goals first
    | exact Except.noConfusion h
    | (cases h; rfl)

/-- The success shape of the engine-to-host conversion: below the sentinel,
with every field inside both chrono's and Python's accepted ranges, the
conversion yields the field-wise copy with seconds forced to 0. -/
theorem into_py_ok_of_bounds (dt : NaiveDateTime)
    (hnle : ¬ NaiveDateTime.le NaiveDateTimeWrapper.max_py_value dt)
    (hy1 : 1 ≤ dt.year) (hy2 : dt.year ≤ 9999)
    (hm1 : 1 ≤ dt.month) (hm2 : dt.month ≤ 12)
    (hd1 : 1 ≤ dt.day) (hd2 : dt.day ≤ daysInMonth dt.year dt.month)
    (hh : dt.hour ≤ 23) (hmi : dt.minute ≤ 59) :
    NaiveDateTimeWrapper.into_py dt
      = Except.ok (some { year := dt.year, month := dt.month, day := dt.day,
                          hour := dt.hour, minute := dt.minute, second := 0 }) := by
  have hdim : daysInMonth dt.year dt.month ≤ 31 := daysInMonth_le_31 _ _
  have hm : u8_try_from dt.month = Except.ok dt.month := u8_ok _ (by omega)
  have hd : u8_try_from dt.day = Except.ok dt.day := u8_ok _ (by omega)
  have hh2 : u8_try_from dt.hour = Except.ok dt.hour := u8_ok _ (by omega)
  have hmin : u8_try_from dt.minute = Except.ok dt.minute := u8_ok _ (by omega)
  have hnew : PyDateTime.new dt.year dt.month dt.day dt.hour dt.minute 0
      = Except.ok { year := dt.year, month := dt.month, day := dt.day,
                    hour := dt.hour, minute := dt.minute, second := 0 } := by
    unfold PyDateTime.new
    rw [if_neg (by omega), if_neg (by omega), if_neg (by omega),
        if_neg (by omega), if_neg (by omega), if_neg (by omega)]
  unfold NaiveDateTimeWrapper.into_py
  rw [if_neg hnle]
  simp only [hm, hd, hh2, hmin, hnew]

-- ---
-- --- Claim C1 (corrected)
-- ---

/-- C1 counterexample: the claim's "otherwise returns a concrete host
datetime ... never reported as an error" fails.  The chrono-valid engine
datetime 0000-01-01 00:00:00 is strictly below MaxRepresentableInstant, yet
`into_py` reports a conversion error (Python's year range starts at 1)
instead of returning a concrete host datetime. -/
theorem c1_counterexample :
    ChronoValid { year := 0, month := 1, day := 1, hour := 0, minute := 0, second := 0 }
    ∧ NaiveDateTime.lt
        { year := 0, month := 1, day := 1, hour := 0, minute := 0, second := 0 }
        NaiveDateTimeWrapper.max_py_value
    ∧ NaiveDateTimeWrapper.into_py
        { year := 0, month := 1, day := 1, hour := 0, minute := 0, second := 0 }
      = Except.error { kind := PyErrKind.valueError, message := "year is out of range" } :=
  ⟨by decide, by decide, by rfl⟩

/-- C1 (amended): every engine datetime at or after MaxRepresentableInstant
converts to absence, and this clamping is never an error; an engine datetime
strictly below the sentinel converts to a concrete host datetime provided it
is chrono-valid and its year is at least 1 (host years start at 1). -/
theorem c1_clamp_amended (dt : NaiveDateTime) :
    (NaiveDateTime.le NaiveDateTimeWrapper.max_py_value dt →
      NaiveDateTimeWrapper.into_py dt = Except.ok none)
    ∧ (ChronoValid dt → 1 ≤ dt.year →
        NaiveDateTime.lt dt NaiveDateTimeWrapper.max_py_value →
        NaiveDateTimeWrapper.into_py dt
          = Except.ok (some { year := dt.year, month := dt.month, day := dt.day,
                              hour := dt.hour, minute := dt.minute, second := 0 })) := by
  refine ⟨?_, ?_⟩
  · intro hge
    unfold NaiveDateTimeWrapper.into_py
    rw [if_pos hge]
  · rintro ⟨h1, h2, h3, h4, h5, h6, h7, h8, h9⟩ hy hlt
    exact into_py_ok_of_bounds dt (NaiveDateTime.not_le_of_lt hlt) hy
      (NaiveDateTime.year_le_of_lt_max hlt) h3 h4 h5 h6 h7 h8

/-- C1 amended witness: both branches exercised at concrete inputs (an
instant past the sentinel, and a valid instant below it). -/
theorem c1_clamp_amended_witness :
    NaiveDateTimeWrapper.into_py
        { year := 10000, month := 1, day := 1, hour := 0, minute := 0, second := 0 }
      = Except.ok none
    ∧ NaiveDateTimeWrapper.into_py
        { year := 2024, month := 2, day := 29, hour := 8, minute := 30, second := 12 }
      = Except.ok (some { year := 2024, month := 2, day := 29,
                          hour := 8, minute := 30, second := 0 }) :=
  ⟨(c1_clamp_amended _).1 (by decide),
   (c1_clamp_amended _).2 (by decide) (by decide) (by decide)⟩

-- ---
-- --- Claim C3 (confirmed)
-- ---

/-- C3: for every host datetime strictly below MaxRepresentableInstant,
converting to the engine representation and back
(`into_py` after `extract`) yields exactly the input with its seconds field
replaced by 0, all other fields preserved. -/
theorem c3_round_trip (p : PyDateTime) (hv : PyValid p)
    (hlt : NaiveDateTime.lt (NaiveDateTimeWrapper.extract p)
             NaiveDateTimeWrapper.max_py_value) :
    NaiveDateTimeWrapper.into_py (NaiveDateTimeWrapper.extract p)
      = Except.ok (some { year := p.year, month := p.month, day := p.day,
                          hour := p.hour, minute := p.minute, second := 0 }) := by
  obtain ⟨h1, h2, h3, h4, h5, h6, h7, h8, h9⟩ := hv
  exact into_py_ok_of_bounds _ (NaiveDateTime.not_le_of_lt hlt)
    h1 h2 h3 h4 h5 h6 h7 h8

/-- C3 witness: the round trip at 2021-03-14 15:09:26 gives back the same
fields with seconds zeroed. -/
theorem c3_round_trip_witness :
    NaiveDateTimeWrapper.into_py (NaiveDateTimeWrapper.extract
        { year := 2021, month := 3, day := 14, hour := 15, minute := 9, second := 26 })
      = Except.ok (some { year := 2021, month := 3, day := 14,
                          hour := 15, minute := 9, second := 0 }) :=
  c3_round_trip _ (by decide) (by decide)

-- ---
-- --- Claim C4 (corrected)
-- ---

/-- C4 counterexample: the claim "to_engine forces the seconds field to 0"
fails: extracting the host datetime 2021-06-15 10:20:30 yields an engine
datetime whose seconds field is 30, not 0. -/
theorem c4_counterexample :
    (NaiveDateTimeWrapper.extract
        { year := 2021, month := 6, day := 15, hour := 10, minute := 20, second := 30 }).second
      ≠ 0 := by
  decide

/-- C4 (amended): the host-to-engine conversion is a field-wise copy that
preserves every field including seconds; seconds are forced to 0 only in
the engine-to-host direction (`into_py`). -/
theorem c4_field_copy_amended (p : PyDateTime) :
    NaiveDateTimeWrapper.extract p
      = { year := p.year, month := p.month, day := p.day,
          hour := p.hour, minute := p.minute, second := p.second }
    ∧ (∀ (dt : NaiveDateTime) (res : PyDateTime),
        NaiveDateTimeWrapper.into_py dt = Except.ok (some res) → res.second = 0) := by
  refine ⟨rfl, ?_⟩
  intro dt res hok
  unfold NaiveDateTimeWrapper.into_py at hok
  by_cases hle : NaiveDateTime.le NaiveDateTimeWrapper.max_py_value dt
  · rw [if_pos hle] at hok
    exact absurd hok (by simp)
  · rw [if_neg hle] at hok
    rcases hm : u8_try_from dt.month with em | m
    · simp [hm] at hok
    · simp only [hm] at hok
      rcases hd : u8_try_from dt.day with ed | d
      · simp [hd] at hok
      · simp only [hd] at hok
        rcases hhr : u8_try_from dt.hour with eh | hr
        · simp [hhr] at hok
        · simp only [hhr] at hok
          rcases hmi : u8_try_from dt.minute with emi | mi
          · simp [hmi] at hok
          · simp only [hmi] at hok
            rcases hnew : PyDateTime.new dt.year m d hr mi 0 with en | q
            · simp [hnew] at hok
            · simp only [hnew] at hok
              have hq : q = res := by simpa using hok
              subst hq
              exact PyDateTime.new_second _ _ _ _ _ _ _ hnew

/-- C4 amended witness: the output-side zeroing at a concrete conversion. -/
theorem c4_field_copy_amended_witness :
    ({ year := 2021, month := 3, day := 14, hour := 15, minute := 9, second := 0 }
        : PyDateTime).second = 0 :=
  (c4_field_copy_amended
      { year := 2021, month := 6, day := 15, hour := 10, minute := 20, second := 30 }).2
    { year := 2021, month := 3, day := 14, hour := 15, minute := 9, second := 26 }
    { year := 2021, month := 3, day := 14, hour := 15, minute := 9, second := 0 }
    (by rfl)

-- ---
-- --- Claim C10 (corrected)
-- ---

/-- C10 counterexample: the claim "the conversion always succeeds / the
failure branch is unreachable" fails: the chrono-valid engine datetime
-0001-06-15 12:00:00 is strictly below MaxRepresentableInstant yet the
conversion takes the failure branch (Python rejects years below 1). -/
theorem c10_counterexample :
    ChronoValid { year := -1, month := 6, day := 15, hour := 12, minute := 0, second := 0 }
    ∧ NaiveDateTime.lt
        { year := -1, month := 6, day := 15, hour := 12, minute := 0, second := 0 }
        NaiveDateTimeWrapper.max_py_value
    ∧ NaiveDateTimeWrapper.into_py
        { year := -1, month := 6, day := 15, hour := 12, minute := 0, second := 0 }
      = Except.error { kind := PyErrKind.valueError, message := "year is out of range" } :=
  ⟨by decide, by decide, by rfl⟩

/-- C10 (amended): for every chrono-valid engine datetime the four `u8`
narrowings of month, day, hour and minute always succeed (those fields
always fit the host constructor's parameter ranges), and the full conversion
below the sentinel succeeds whenever additionally the year is at least 1;
the reachable failure is only the host constructor's year check. -/
theorem c10_conversion_amended (dt : NaiveDateTime) (hv : ChronoValid dt) :
    Result.is_ok (u8_try_from dt.month) = true
    ∧ Result.is_ok (u8_try_from dt.day) = true
    ∧ Result.is_ok (u8_try_from dt.hour) = true
    ∧ Result.is_ok (u8_try_from dt.minute) = true
    ∧ (1 ≤ dt.year → NaiveDateTime.lt dt NaiveDateTimeWrapper.max_py_value →
        ∃ res : PyDateTime,
          NaiveDateTimeWrapper.into_py dt = Except.ok (some res)) := by
  obtain ⟨h1, h2, h3, h4, h5, h6, h7, h8, h9⟩ := hv
  have hdim := daysInMonth_le_31 dt.year dt.month
  refine ⟨?_, ?_, ?_, ?_, ?_⟩
  · rw [u8_ok _ (by omega)]; rfl
  · rw [u8_ok _ (by omega)]; rfl
  · rw [u8_ok _ (by omega)]; rfl
  · rw [u8_ok _ (by omega)]; rfl
  · intro hy hlt
    exact ⟨_, into_py_ok_of_bounds dt (NaiveDateTime.not_le_of_lt hlt) hy
      (NaiveDateTime.year_le_of_lt_max hlt) h3 h4 h5 h6 h7 h8⟩

/-- C10 amended witness: the narrowings succeed at a concrete chrono-valid
instant. -/
theorem c10_conversion_amended_witness :
    Result.is_ok (u8_try_from
        ({ year := 2023, month := 11, day := 30, hour := 23, minute := 59, second := 59 }
          : NaiveDateTime).month) = true :=
  (c10_conversion_amended
      { year := 2023, month := 11, day := 30, hour := 23, minute := 59, second := 59 }
      (by decide)).1

-- ---
-- --- Claim C5 (confirmed, engine state queries spec-modelled)
-- ---

/-- C5: for every domain handle and every explicitly supplied instant,
exactly one of `is_open`, `is_closed`, `is_unknown` is true, and each is
true exactly when `state` returns the corresponding value. -/
theorem c5_state_consistency (td : TimeDomain) (i now : NaiveDateTime) :
    ((td.is_open (some i) now).toNat + (td.is_closed (some i) now).toNat
      + (td.is_unknown (some i) now).toNat = 1)
    ∧ (td.is_open (some i) now = (td.state (some i) now == State.Open))
    ∧ (td.is_closed (some i) now = (td.state (some i) now == State.Closed))
    ∧ (td.is_unknown (some i) now = (td.state (some i) now == State.Unknown)) := by
  cases h : td.inner.state i <;>
    simp [TimeDomain.is_open, TimeDomain.is_closed, TimeDomain.is_unknown,
      TimeDomain.state, TimeDomainValue.is_open, TimeDomainValue.is_closed,
      TimeDomainValue.is_unknown, State.from_rule_kind, get_time, h] <;>
    decide

-- ---
-- --- Claim C9 (confirmed)
-- ---

/-- C9: the state codec is a bidirectional 1:1 mapping between the tri-state
result and the closed vocabulary `open`/`closed`/`unknown`: the encode table
is exactly the three pairs, decoding inverts encoding, the encoder never
produces a token outside the vocabulary, and the engine-result import is the
evident 1:1 mapping. -/
theorem c9_state_codec :
    (State.into_py State.Open = "open"
      ∧ State.into_py State.Closed = "closed"
      ∧ State.into_py State.Unknown = "unknown")
    ∧ (∀ s : State, State.decode (State.into_py s) = some s)
    ∧ (∀ s : State, State.into_py s = "open" ∨ State.into_py s = "closed"
        ∨ State.into_py s = "unknown")
    ∧ (State.from_rule_kind RuleKind.Open = State.Open
      ∧ State.from_rule_kind RuleKind.Closed = State.Closed
      ∧ State.from_rule_kind RuleKind.Unknown = State.Unknown) := by
  refine ⟨⟨rfl, rfl, rfl⟩, ?_, ?_, ⟨rfl, rfl, rfl⟩⟩
  · intro s; cases s <;> rfl
  · intro s
    cases s
    · exact Or.inl rfl
    · exact Or.inr (Or.inl rfl)
    · exact Or.inr (Or.inr rfl)

-- ---
-- --- Claim C7 (confirmed, parser spec-modelled as a shared parameter)
-- ---

/-- C7: `validate` returns exactly `parse(t).is_ok` — it performs no work
beyond invoking the parser — and it returns true precisely when
domain-handle construction from the same text succeeds. -/
theorem c7_validate_iff_parse
    (parse : String → Except EngineParseError TimeDomainValue) (t : String) :
    validate parse t = Result.is_ok (parse t)
    ∧ (validate parse t = true ↔ Result.is_ok (TimeDomain.new parse t) = true) := by
  refine ⟨rfl, ?_⟩
  cases hp : parse t <;> simp [validate, TimeDomain.new, Result.is_ok, hp]

/-- C7 witness: the equivalence at the concrete valid description `24/7`. -/
theorem c7_validate_iff_parse_witness :
    validate spec_parse "24/7" = Result.is_ok (spec_parse "24/7")
    ∧ (validate spec_parse "24/7" = true
        ↔ Result.is_ok (TimeDomain.new spec_parse "24/7") = true) :=
  c7_validate_iff_parse spec_parse "24/7"

-- ---
-- --- Claim C8 (confirmed, parser spec-modelled as a shared parameter)
-- ---

/-- C8: whenever the engine parser fails, domain-handle construction fails
with exactly the `InvalidExpression` classification (surfaced as a Python
`SyntaxError`) whose message is the fixed prefix followed by the engine's
rendered diagnostic — so the message contains the diagnostic — and no
domain value (partial or otherwise) is returned. -/
theorem c8_parse_error_classified
    (parse : String → Except EngineParseError TimeDomainValue) (t : String)
    (e : EngineParseError) (hfail : parse t = Except.error e) :
    TimeDomain.new parse t
      = Except.error { kind := PyErrKind.invalidExpression,
                       message := "could not parse expression:\n" ++ e.rendered } := by
  unfold TimeDomain.new
  rw [hfail]
  rfl

/-- C8 witness: construction from the invalid description `24/77` fails with
the classified syntax error carrying the rendered diagnostic. -/
theorem c8_parse_error_classified_witness :
    TimeDomain.new spec_parse "24/77"
      = Except.error { kind := PyErrKind.invalidExpression,
                       message := "could not parse expression:\nunexpected token in expression: 24/77" } :=
  c8_parse_error_classified spec_parse "24/77"
    { rendered := "unexpected token in expression: 24/77" } (by rfl)

-- ---
-- --- Claim C2 (confirmed): Arc lifetime lemmas
-- ---

theorem ArcAlloc.cloneN_new (v : α) (k : Nat) :
    ArcAlloc.cloneN k (ArcAlloc.new v) = { value? := some v, strong := k + 1 } := by
  induction k with
  | zero => rfl
  | succ k ih =>
    show ArcAlloc.clone (ArcAlloc.cloneN k (ArcAlloc.new v)) = _
    rw [ih]
    rfl

theorem ArcAlloc.dropN_some (v : α) :
    ∀ (j n : Nat), j < n →
      ArcAlloc.dropN j { value? := some v, strong := n }
        = { value? := some v, strong := n - j } := by
  intro j
  induction j with
  | zero => intro n _; rfl
  | succ j ih =>
    intro n hj
    show ArcAlloc.drop (ArcAlloc.dropN j { value? := some v, strong := n }) = _
    rw [ih n (by omega)]
    unfold ArcAlloc.drop
    dsimp only
    rw [if_neg (by omega)]
    have : n - j - 1 = n - (j + 1) := by omega
    simp only [this]

/-- C2: the `Arc` discipline of the handle and its streams.  With the handle
(one strong holder from `Arc::new`) plus `k` streams (one `Arc::clone` each,
from `intervals`), dropping any `j ≤ k` of the `k + 1` holders leaves the
same unmutated parsed value alive; it is destroyed exactly when the last of
the `k + 1` holders is dropped.  Moreover `RangeIterator::new` stores the
shared value unchanged in `_td`, and every `__next__` step leaves `_td`
untouched, so a stream holds its strong reference for its entire
lifetime. -/
theorem c2_arc_lifetime (v : TimeDomainValue) (k j : Nat) (h : j ≤ k) :
    ((ArcAlloc.dropN j (ArcAlloc.cloneN k (ArcAlloc.new v))).value? = some v)
    ∧ ((ArcAlloc.dropN (k + 1) (ArcAlloc.cloneN k (ArcAlloc.new v))).value? = none)
    ∧ (∀ (td : TimeDomainValue) (start : NaiveDateTime) (stop : Option NaiveDateTime),
        (RangeIterator.new td start stop)._td = td)
    ∧ (∀ (it next_it : RangeIterator) (rec : IntervalRecord),
        RangeIterator.next it = some (rec, next_it) → next_it._td = it._td) := by
  refine ⟨?_, ?_, ?_, ?_⟩
  · rw [ArcAlloc.cloneN_new, ArcAlloc.dropN_some v j (k + 1) (by omega)]
  · rw [ArcAlloc.cloneN_new]
    show (ArcAlloc.drop (ArcAlloc.dropN k { value? := some v, strong := k + 1 })).value? = none
    rw [ArcAlloc.dropN_some v k (k + 1) (by omega)]
    unfold ArcAlloc.drop
    dsimp only
    rw [if_pos (by omega)]
  · intro td start stop
    rfl
  · intro it next_it rec hnext
    unfold RangeIterator.next at hnext
    cases hiter : it.iter with
    | nil => rw [hiter] at hnext; exact Option.noConfusion hnext
    | cons r rest =>
      rw [hiter] at hnext
      have h2 : { it with iter := rest } = next_it := by
        have := Option.some.inj hnext
        exact congrArg Prod.snd this
      rw [← h2]

/-- C2 witness: with the handle and one stream holding the `24/7` domain,
dropping one holder leaves the value alive and unchanged. -/
theorem c2_arc_lifetime_witness :
    (ArcAlloc.dropN 1 (ArcAlloc.cloneN 1 (ArcAlloc.new td_open_24_7))).value?
      = some td_open_24_7 :=
  (c2_arc_lifetime td_open_24_7 1 1 (by decide)).1

-- ---
-- --- Claim C6 (confirmed, engine bounded iterator spec-modelled)
-- ---

/-- Records whose spans are non-empty and adjacent are in non-decreasing
start order. -/
theorem chain_le_of_adjacent :
    ∀ (l : List IntervalRecord),
      (∀ r ∈ l, NaiveDateTime.lt r.start r.«end») →
      List.Chain' (fun a b => a.«end» = b.start) l →
      List.Chain' (fun a b => NaiveDateTime.le a.start b.start) l := by
  intro l
  induction l with
  | nil => intro _ _; exact List.chain'_nil
  | cons a tl ih =>
    intro hmem hch
    cases tl with
    | nil => exact List.chain'_singleton a
    | cons b tl2 =>
      rw [List.chain'_cons] at hch ⊢
      refine ⟨?_, ih (fun r hr => hmem r (List.mem_cons_of_mem a hr)) hch.2⟩
      have hlt : NaiveDateTime.lt a.start a.«end» := hmem a (List.mem_cons_self a _)
      rw [hch.1] at hlt
      exact NaiveDateTime.le_of_lt hlt

/-- C6: for every bounded range query, assuming the engine's bounded
iterator contract (spec-modelled, `BoundedRangeSpec`), every record the
stream yields satisfies `start ≤ record.start < record.end ≤ end` (so the
final record's end never exceeds the requested end), the records come in
non-decreasing start order, and they are adjacent with first start `start`
and last end `end` — covering `[start, end)` with no gaps and no
overlaps. -/
theorem c6_bounded_range (td : TimeDomainValue) (s e now : NaiveDateTime)
    (hspec : BoundedRangeSpec s e (td.iter_range s e)) :
    (∀ rec ∈ (TimeDomain.intervals { inner := td } (some s) (some e) now).yields,
        NaiveDateTime.le s rec.start ∧ NaiveDateTime.lt rec.start rec.«end»
          ∧ NaiveDateTime.le rec.«end» e)
    ∧ List.Chain' (fun a b => NaiveDateTime.le a.start b.start)
        (TimeDomain.intervals { inner := td } (some s) (some e) now).yields
    ∧ List.Chain' (fun a b => a.«end» = b.start)
        (TimeDomain.intervals { inner := td } (some s) (some e) now).yields
    ∧ ((TimeDomain.intervals { inner := td } (some s) (some e) now).yields = []
        → s = e)
    ∧ ((TimeDomain.intervals { inner := td } (some s) (some e) now).yields ≠ []
        → (TimeDomain.intervals { inner := td } (some s) (some e) now).yields.head?.map
              IntervalRecord.start = some s
          ∧ (TimeDomain.intervals { inner := td } (some s) (some e) now).yields.getLast?.map
              IntervalRecord.«end» = some e) := by
  obtain ⟨hmem, hchain, hnil, hcover⟩ := hspec
  have hy : (TimeDomain.intervals { inner := td } (some s) (some e) now).yields
      = (td.iter_range s e).map
          (fun r => { start := r.start, «end» := r.«end»,
                      state := State.from_rule_kind r.kind,
                      comments := r.comments }) := rfl
  have hmem' : ∀ rec ∈ (TimeDomain.intervals { inner := td } (some s) (some e) now).yields,
      NaiveDateTime.le s rec.start ∧ NaiveDateTime.lt rec.start rec.«end»
        ∧ NaiveDateTime.le rec.«end» e := by
    intro rec hrec
    rw [hy, List.mem_map] at hrec
    obtain ⟨r, hr, hconv⟩ := hrec
    rw [← hconv]
    exact hmem r hr
  have hchain' : List.Chain' (fun a b => a.«end» = b.start)
      (TimeDomain.intervals { inner := td } (some s) (some e) now).yields := by
    rw [hy, List.chain'_map]
    exact hchain
  refine ⟨hmem', ?_, hchain', ?_, ?_⟩
  · exact chain_le_of_adjacent _ (fun r hr => (hmem' r hr).2.1) hchain'
  · intro hempty
    rw [hy, List.map_eq_nil_iff] at hempty
    exact hnil hempty
  · intro hne
    rw [hy] at hne ⊢
    have hne2 : td.iter_range s e ≠ [] := by
      intro h0
      exact hne (by rw [h0]; rfl)
    refine ⟨?_, ?_⟩
    · rw [List.head?_map, Option.map_map]
      have hc := (hcover hne2).1
      rw [← hc]
      rfl
    · rw [List.getLast?_map, Option.map_map]
      have hc := (hcover hne2).2
      rw [← hc]
      rfl

/-- C6 witness: a two-rule domain over the window 2020-01-01 00:00 to
2020-01-02 00:00 satisfies the engine contract, and the yielded records
cover the window with no gaps. -/
theorem c6_bounded_range_witness :
    List.Chain' (fun a b => a.«end» = b.start)
      (TimeDomain.intervals { inner := td_two_rules }
        (some { year := 2020, month := 1, day := 1, hour := 0, minute := 0, second := 0 })
        (some { year := 2020, month := 1, day := 2, hour := 0, minute := 0, second := 0 })
        { year := 2020, month := 1, day := 1, hour := 0, minute := 0, second := 0 }).yields :=
  (c6_bounded_range td_two_rules
    { year := 2020, month := 1, day := 1, hour := 0, minute := 0, second := 0 }
    { year := 2020, month := 1, day := 2, hour := 0, minute := 0, second := 0 }
    { year := 2020, month := 1, day := 1, hour := 0, minute := 0, second := 0 }
    ⟨by decide, List.chain'_cons.mpr ⟨by decide, List.chain'_singleton _⟩,
      by decide, by decide⟩).2.2.1
